import Mathlib

/-!
# Verification of the greenroom media-discovery and agent-comparison core

Shallow embedding of the greenroom service layer:
* the multi-agent comparison orchestrator (`compare_llms` / `_format_responses`
  in `tools/agent_tools.py`),
* the TMDB media normalization service (`TMDBService` in `services/tmdb/service.py`),
* the genre aggregator (`get_genres` / `_combine_genre_lists`), and
* the film-discovery tool validation path (`tools/discovery_tools.py`).

Python `dict`s are modelled as insertion-ordered association lists, optional
JSON fields as `Option`, Python `int` as `Int`, `float` (used only for
pass-through and order comparison against decimal bounds) as `ℚ`, and raised
exceptions as `Except` errors.  Raw upstream records are modelled with the
fields of the source's Pydantic schemas, each optional, so that a record fails
validation exactly when its required `id` field is missing — matching the
source comment "Skip items that don't match the schema (missing required
fields)".
-/

set_option autoImplicit false

namespace Greenroom

/-! ## Multi-agent comparison orchestrator (`tools/agent_tools.py`) -/

/-- One settled outcome of a backend LLM call, as delivered by
`asyncio.gather(..., return_exceptions=True)`: either the result string or the
raised exception (carrying its `str(...)` message). -/
inductive LLMOutcome where
  | ok (text : String)
  | exc (msg : String)
deriving DecidableEq, Repr

/-- Entry of `LLMComparisonResultDict.responses` (`models/responses.py`). -/
structure LLMResponseEntry where
  source : String
  text : Option String
  error : Option String
  length : Nat
deriving DecidableEq, Repr

/-- `LLMComparisonResultDict` (`models/responses.py`). -/
structure LLMComparisonResult where
  prompt : String
  responses : List LLMResponseEntry
deriving DecidableEq, Repr

/-- Body of the `for label, response in labeled_responses` loop of
`_format_responses`: an exception becomes `{text: None, error: str(e), length: 0}`,
a string result becomes `{text: r, error: None, length: len(r)}`. -/
def formatEntry (label : String) (response : LLMOutcome) : LLMResponseEntry :=
  match response with
  | .exc msg => { source := label, text := none, error := some msg, length := 0 }
  | .ok text => { source := label, text := some text, error := none, length := text.length }

/-- `_format_responses` from `tools/agent_tools.py`: folds the labeled
outcomes in order, appending one formatted entry per outcome. -/
def formatResponses (prompt : String) (labeled : List (String × LLMOutcome)) :
    LLMComparisonResult :=
  labeled.foldl
    (fun acc lr => { acc with responses := acc.responses ++ [formatEntry lr.1 lr.2] })
    { prompt := prompt, responses := [] }

/-- The two backend collaborators of `compare_llms` (the resample backend
called through the sampling capability and the alternative backend), modelled
as pure outcome functions of (prompt, temperature, max_tokens). -/
structure LLMBackends where
  resample : String → ℚ → Int → LLMOutcome
  alternative : String → ℚ → Int → LLMOutcome

/-- `asyncio.gather(a, b, return_exceptions=True)` returns the settled
outcomes in argument order, whatever the completion order.  The
`firstSettledFirst` flag records which call settled first and, per the
`gather` contract, has no bearing on the returned pair. -/
def gatherTwo (first second : LLMOutcome) (firstSettledFirst : Bool) :
    LLMOutcome × LLMOutcome :=
  match firstSettledFirst with
  | true => (first, second)
  | false => (first, second)

/-- Python's `not prompt or not prompt.strip()`: true iff the prompt is empty
or consists solely of whitespace characters. -/
def promptBlank (prompt : String) : Bool :=
  prompt.toList.all (·.isWhitespace)

/-- `compare_llms` from `tools/agent_tools.py`.  Returns the result (or the
`ValueError` message) together with the number of backend calls issued, so
that the fail-fast/no-network contract is visible in the model.  The
`firstSettledFirst` flag models which of the two concurrent calls settled
first. -/
def compareLLMs (backends : LLMBackends) (prompt : String) (temperature : ℚ)
    (maxTokens : Int) (firstSettledFirst : Bool) :
    Except String LLMComparisonResult × Nat :=
  if promptBlank prompt then
    (.error "Prompt cannot be empty", 0)
  else if temperature < 0 ∨ temperature > 2 then
    (.error "Temperature must be between 0 and 2", 0)
  else if maxTokens < 1 ∨ maxTokens > 4000 then
    (.error "Max tokens must be between 1 and 4000", 0)
  else
    let settled := gatherTwo (backends.resample prompt temperature maxTokens)
      (backends.alternative prompt temperature maxTokens) firstSettledFirst
    let combined := [("claude resample", settled.1), ("ollama alternative", settled.2)]
    (.ok (formatResponses prompt combined), 2)

/-- True iff an `Except` value is an error (a raised exception). -/
def isError {ε α : Type} (e : Except ε α) : Bool :=
  match e with
  | .error _ => true
  | .ok _ => false

/-! ## Data model (`models/media_types.py`, `models/media.py`, `models/genre.py`) -/

/-- The `MediaType` literal union from `models/media_types.py`. -/
inductive MediaType where
  | film
  | television
  | podcast
  | book
  | music
  | game
deriving DecidableEq, Repr

/-- The string value of a media type (the literal the Python code uses). -/
def mediaTypeStr (mt : MediaType) : String :=
  match mt with
  | .film => "film"
  | .television => "television"
  | .podcast => "podcast"
  | .book => "book"
  | .music => "music"
  | .game => "game"

/-- A calendar date (Python `datetime.date`). -/
structure SDate where
  year : Nat
  month : Nat
  day : Nat
deriving DecidableEq, Repr

/-- The normalized `Media` dataclass from `models/media.py`. -/
structure Media where
  id : String
  media_type : MediaType
  title : String
  date : Option SDate
  rating : Option ℚ
  description : Option String
  genre_ids : List Int
deriving DecidableEq, Repr

/-- The `MediaList` dataclass from `models/media.py`. -/
structure MediaList where
  results : List Media
  total_results : Int
  page : Int
  total_pages : Int
deriving DecidableEq, Repr

/-- The `Genre` dataclass from `models/genre.py`. -/
structure Genre where
  id : Int
  name : String
  has_films : Bool
  has_tv_shows : Bool
deriving DecidableEq, Repr

/-- The `GenreList` dataclass from `models/genre.py`. -/
structure GenreList where
  genres : List Genre
deriving DecidableEq, Repr

/-- The validated `TMDBGenre` Pydantic model (`services/tmdb/models.py`),
requiring both `id` and `name`. -/
structure TMDBGenre where
  id : Int
  name : String
deriving DecidableEq, Repr

/-! ## Raw upstream records and Pydantic validation (`services/tmdb/models.py`) -/

/-- A raw record of the provider's `results` array, with every field of the
source's Pydantic schemas optional (`none` models an absent or null JSON
field).  Only the presence of `id` decides validation. -/
structure RawRecord where
  id : Option Int
  title : Option String
  name : Option String
  release_date : Option String
  first_air_date : Option String
  vote_average : Option ℚ
  overview : Option String
  genre_ids : Option (List Int)
deriving DecidableEq, Repr

/-- Which Pydantic model class validates a raw record (`TMDBFilm` keeps
`title`/`release_date`, `TMDBTelevision` keeps `name`/`first_air_date`; the
other pair of attributes does not exist on the instance, so `getattr` with a
default of `None` yields `none`). -/
inductive ModelClass where
  | film
  | television
deriving DecidableEq, Repr

/-- A validated Pydantic model instance (`TMDBFilm` or `TMDBTelevision`),
with the attributes `_to_standard_media` reads via `getattr`. -/
structure TMDBItem where
  id : Int
  title : Option String
  name : Option String
  release_date : Option String
  first_air_date : Option String
  vote_average : Option ℚ
  overview : Option String
  genre_ids : Option (List Int)
deriving DecidableEq, Repr

/-- Projection of a raw record through a model class, ignoring whether the
required `id` is present (`id` defaults to 0 purely to make this total; it is
only used under `r.id = some i`). -/
def extractItem (mc : ModelClass) (r : RawRecord) : TMDBItem :=
  match mc with
  | .film =>
    { id := r.id.getD 0, title := r.title, name := none,
      release_date := r.release_date, first_air_date := none,
      vote_average := r.vote_average, overview := r.overview,
      genre_ids := r.genre_ids }
  | .television =>
    { id := r.id.getD 0, title := none, name := r.name,
      release_date := none, first_air_date := r.first_air_date,
      vote_average := r.vote_average, overview := r.overview,
      genre_ids := r.genre_ids }

/-- `config.model_class(**item_data)`: Pydantic construction succeeds exactly
when the required `id` field is present; all other fields are optional. -/
def validateRecord (mc : ModelClass) (r : RawRecord) : Option TMDBItem :=
  match r.id with
  | none => none
  | some _ => some (extractItem mc r)

/-- A raw genre record (`{"id": ..., "name": ...}`), fields optional. -/
structure RawGenre where
  id : Option Int
  name : Option String
deriving DecidableEq, Repr

/-- `TMDBGenre(**genre)`: validation requires both `id` and `name`. -/
def validateGenre (r : RawGenre) : Option TMDBGenre :=
  match r.id, r.name with
  | some i, some n => some { id := i, name := n }
  | _, _ => none

/-! ## TMDB configuration (`services/tmdb/config.py`) -/

/-- `TMDBMediaConfig` dataclass. -/
structure TMDBMediaConfig where
  endpoint : String
  year_param : String
  title_field : String
  date_field : String
  date_sort_prefix : String
  model_class : ModelClass
deriving DecidableEq, Repr

/-- `TMDB_FILM_CONFIG`. -/
def TMDB_FILM_CONFIG : TMDBMediaConfig :=
  { endpoint := "movie", year_param := "primary_release_year",
    title_field := "title", date_field := "release_date",
    date_sort_prefix := "release_date", model_class := .film }

/-- `TMDB_TELEVISION_CONFIG`. -/
def TMDB_TELEVISION_CONFIG : TMDBMediaConfig :=
  { endpoint := "tv", year_param := "first_air_date_year",
    title_field := "name", date_field := "first_air_date",
    date_sort_prefix := "first_air_date", model_class := .television }

/-- The `config_map` dict of `TMDBService.__init__`, accessed with `.get`
(so every media type other than film/television yields `None`). -/
def configMap (mt : MediaType) : Option TMDBMediaConfig :=
  match mt with
  | .film => some TMDB_FILM_CONFIG
  | .television => some TMDB_TELEVISION_CONFIG
  | _ => none

/-- `getattr(tmdb_item, field, None)` for the string-valued fields named by a
`TMDBMediaConfig` (`title`/`name`/`release_date`/`first_air_date`). -/
def getStrField (item : TMDBItem) (field : String) : Option String :=
  if field = "title" then item.title
  else if field = "name" then item.name
  else if field = "release_date" then item.release_date
  else if field = "first_air_date" then item.first_air_date
  else none

/-! ## Date parsing (`TMDBService._parse_date`) -/

/-- Gregorian leap-year rule used by Python's `datetime.date`. -/
def isLeapYear (y : Nat) : Bool :=
  y % 4 == 0 && (y % 100 != 0 || y % 400 == 0)

/-- Days in a month of the proleptic Gregorian calendar. -/
def daysInMonth (y m : Nat) : Nat :=
  if m == 2 then (if isLeapYear y then 29 else 28)
  else if m == 4 || m == 6 || m == 9 || m == 11 then 30
  else 31

/-- Numeric value of a decimal digit character. -/
def toDigit (c : Char) : Nat :=
  c.toNat - 48

/-- Is the character a decimal digit (code point between `'0'` and `'9'`)? -/
def isDigitChar (c : Char) : Bool :=
  48 ≤ c.toNat && c.toNat ≤ 57

/-- Construction of a `datetime.date` from already-extracted numeric year,
month and day: in-range values yield the date, out-of-range values raise
`ValueError` (modelled as `none`). -/
def assembleYMD (y m d : Nat) : Option SDate :=
  if 1 ≤ y ∧ 1 ≤ m ∧ m ≤ 12 ∧ 1 ≤ d ∧ d ≤ daysInMonth y m then
    some { year := y, month := m, day := d }
  else none

/-- `datetime.date.fromisoformat` on the `YYYY-MM-DD` calendar-date format
TMDB serves: ten characters, digits in the year/month/day positions, dashes
as separators, and in-range month/day for the proleptic Gregorian calendar
(year at least 1, as Python's `date` requires).  Any other string raises
`ValueError`, modelled as `none`. -/
def fromIsoFormat (s : String) : Option SDate :=
  match s.toList with
  | [y1, y2, y3, y4, s1, m1, m2, s2, d1, d2] =>
    if isDigitChar y1 && isDigitChar y2 && isDigitChar y3 && isDigitChar y4 &&
        s1 == '-' && isDigitChar m1 && isDigitChar m2 && s2 == '-' &&
        isDigitChar d1 && isDigitChar d2 then
      assembleYMD
        (1000 * toDigit y1 + 100 * toDigit y2 + 10 * toDigit y3 + toDigit y4)
        (10 * toDigit m1 + toDigit m2)
        (10 * toDigit d1 + toDigit d2)
    else none
  | _ => none

/-- `TMDBService._parse_date`: `None` and `""` short-circuit to `None`
(`if not date_str`), otherwise `date.fromisoformat` with `ValueError`
caught and converted to `None`. -/
def parseDate (dateStr : Option String) : Option SDate :=
  match dateStr with
  | none => none
  | some s => if s = "" then none else fromIsoFormat s

/-- Decimal digit character (spec side, for rendering dates). -/
def digitChar (n : Nat) : Char :=
  Char.ofNat (n + 48)

/-- Spec-side rendering of a calendar date in `YYYY-MM-DD` form (the string
that denotes the date, zero-padded as ISO 8601 requires). -/
def renderDate (dt : SDate) : String :=
  String.mk [digitChar (dt.year / 1000 % 10), digitChar (dt.year / 100 % 10),
    digitChar (dt.year / 10 % 10), digitChar (dt.year % 10), '-',
    digitChar (dt.month / 10 % 10), digitChar (dt.month % 10), '-',
    digitChar (dt.day / 10 % 10), digitChar (dt.day % 10)]

/-- Spec-side validity of year/month/day as a calendar date representable by
Python's `datetime.date` in four-digit-year ISO form. -/
def validYMD (y m d : Nat) : Prop :=
  1 ≤ y ∧ y ≤ 9999 ∧ 1 ≤ m ∧ m ≤ 12 ∧ 1 ≤ d ∧ d ≤ daysInMonth y m

instance validYMD_decidable (y m d : Nat) : Decidable (validYMD y m d) := by
  unfold validYMD
  exact inferInstance

/-! ## TMDB service (`services/tmdb/service.py`) -/

/-- Query-parameter values sent to the provider (str, int or bool). -/
inductive ParamValue where
  | s (v : String)
  | i (v : Int)
  | b (v : Bool)
deriving DecidableEq, Repr

/-- `TMDBService._build_params`, with the params dict as the association
list of its insertion order. -/
def buildParams (config : TMDBMediaConfig) (genreId year : Option Int)
    (language sortBy : Option String) (page : Int) : List (String × ParamValue) :=
  let params := [("sort_by", ParamValue.s (sortBy.getD "popularity.desc")),
    ("page", ParamValue.i page),
    ("include_adult", ParamValue.b false),
    ("include_video", ParamValue.b false)]
  let params := match genreId with
    | some g => params ++ [("with_genres", ParamValue.i g)]
    | none => params
  let params := match year with
    | some y => params ++ [(config.year_param, ParamValue.i y)]
    | none => params
  match language with
  | some l => params ++ [("with_original_language", ParamValue.s l)]
  | none => params

/-- A provider discover response body: the `results` / `total_results` /
`total_pages` keys, each possibly absent. -/
structure TMDBResponse where
  results : Option (List RawRecord)
  total_results : Option Int
  total_pages : Option Int
deriving DecidableEq, Repr

/-- A provider genre-list response body: the `genres` key, possibly absent. -/
structure GenreResponse where
  genres : Option (List RawGenre)
deriving DecidableEq, Repr

/-- `TMDBService._parse_response`: validate each raw item through the
config's model class, silently skipping items that fail validation. -/
def parseResponse (rawResults : List RawRecord) (config : TMDBMediaConfig) :
    List TMDBItem :=
  rawResults.foldl
    (fun acc r =>
      match validateRecord config.model_class r with
      | some item => acc ++ [item]
      | none => acc)
    []

/-- `TMDBService._to_standard_media`: transform a validated provider model to
the normalized `Media`, reading title and date through the config's field
names (`x or ""` / `x or []` collapse `None` and the falsy empty value alike). -/
def toStandardMedia (item : TMDBItem) (config : TMDBMediaConfig)
    (mediaType : MediaType) : Media :=
  { id := toString item.id,
    media_type := mediaType,
    title := (getStrField item config.title_field).getD "",
    date := parseDate (getStrField item config.date_field),
    rating := item.vote_average,
    description := item.overview,
    genre_ids := item.genre_ids.getD [] }

/-- Python list slicing `l[:n]`: for non-negative `n` the first `n` elements,
for negative `n` everything but the last `|n|` elements (clamped at zero). -/
def pySliceTo {α : Type} (l : List α) (n : Int) : List α :=
  if 0 ≤ n then l.take n.toNat
  else l.take (l.length - n.natAbs)

/-- Exceptions `TMDBService.get_media` can raise on its own: `ValueError`
for an unsupported media type, `KeyError` for a missing response key. -/
inductive ServiceError where
  | valueError (msg : String)
  | keyError (key : String)
deriving DecidableEq, Repr

/-- `TMDBService.get_media`.  The external catalog client is the `fetch`
argument; the second component counts how many client calls were issued
(the fail-before-network contract).  `data["results"]` is a bare subscript,
so a response without that key raises `KeyError`; `total_results` and
`total_pages` are read with `.get(..., 0)`. -/
def getMedia (fetch : String → List (String × ParamValue) → TMDBResponse)
    (mediaType : MediaType) (genreId year : Option Int)
    (language sortBy : Option String) (page maxResults : Int) :
    Except ServiceError MediaList × Nat :=
  match configMap mediaType with
  | none => (.error (.valueError ("Unsupported media type: " ++ mediaTypeStr mediaType)), 0)
  | some config =>
    let params := buildParams config genreId year language sortBy page
    let data := fetch ("/discover/" ++ config.endpoint) params
    match data.results with
    | none => (.error (.keyError "results"), 1)
    | some rawResults =>
      let tmdbItems := parseResponse rawResults config
      let standardItems := tmdbItems.map (fun item => toStandardMedia item config mediaType)
      let limitedItems := pySliceTo standardItems maxResults
      (.ok { results := limitedItems,
             total_results := data.total_results.getD 0,
             page := page,
             total_pages := data.total_pages.getD 0 }, 1)

/-! ## Genre aggregator (`TMDBService.get_genres` and helpers) -/

/-- `TMDBService._parse_genres`: validate each raw genre, silently skipping
invalid entries. -/
def parseGenres (rawGenres : List RawGenre) : List TMDBGenre :=
  rawGenres.foldl
    (fun acc g =>
      match validateGenre g with
      | some v => acc ++ [v]
      | none => acc)
    []

/-- Assignment `genres_map[g.name] = g` on an insertion-ordered dict: replace
the value in place if the key exists, else append. -/
def dictInsert (m : List Genre) (g : Genre) : List Genre :=
  match m with
  | [] => [g]
  | h :: t => if h.name = g.name then g :: t else h :: dictInsert t g

/-- Mutation `genres_map[n].has_tv_shows = True` on the (unique) entry keyed
by `n`. -/
def markTVShows (m : List Genre) (n : String) : List Genre :=
  match m with
  | [] => []
  | h :: t =>
    if h.name = n then { h with has_tv_shows := true } :: t
    else h :: markTVShows t n

/-- Membership test `n in genres_map`. -/
def containsName (m : List Genre) (n : String) : Bool :=
  m.any (fun g => g.name = n)

/-- `TMDBService._combine_genre_lists`: insert all film genres (flags
`has_films=true, has_tv_shows=false`), then for each television genre either
mark the existing same-named entry as also available for TV or append a
TV-only entry. -/
def combineGenreLists (filmGenres tvGenres : List TMDBGenre) : GenreList :=
  let afterFilm := filmGenres.foldl
    (fun m fg => dictInsert m { id := fg.id, name := fg.name, has_films := true, has_tv_shows := false })
    []
  let afterTV := tvGenres.foldl
    (fun m tg =>
      if containsName m tg.name then markTVShows m tg.name
      else m ++ [{ id := tg.id, name := tg.name, has_films := false, has_tv_shows := true }])
    afterFilm
  { genres := afterTV }

/-- `TMDBService.get_genres`, with the two already-fetched provider response
bodies as arguments: both vocabularies are read with `.get("genres", [])`,
parsed, and combined. -/
def getGenres (filmData tvData : GenreResponse) : GenreList :=
  combineGenreLists (parseGenres (filmData.genres.getD []))
    (parseGenres (tvData.genres.getD []))

/-- Names of a genre vocabulary, in order. -/
def namesOf (l : List TMDBGenre) : List String :=
  l.map (fun g => g.name)

/-- Spec-side closed form of the merged genre list: the film genres first, in
film order, each keeping its film-side id, with `has_tv_shows` exactly when
the same name occurs in the television vocabulary; then the TV-only genres
appended in television order. -/
def mergedGenres (F T : List TMDBGenre) : List Genre :=
  (F.map fun fg => (⟨fg.id, fg.name, true, decide (fg.name ∈ namesOf T)⟩ : Genre))
  ++ ((T.filter fun tg => decide (tg.name ∉ namesOf F)).map
    fun tg => (⟨tg.id, tg.name, false, true⟩ : Genre))

/-! ## Film discovery tool (`tools/discovery_tools.py`) -/

/-- The `valid_sort_options` list of `_validate_discovery_params`. -/
def validSortOptions : List String :=
  ["popularity.desc", "popularity.asc",
   "vote_average.desc", "vote_average.asc",
   "release_date.desc", "release_date.asc"]

/-- The language check of `_validate_discovery_params`: a provided language
must be a 2-character alphabetic string. -/
def langOk (l : String) : Bool :=
  l.length == 2 && l.toList.all (fun c => c.isAlpha)

/-- `_validate_discovery_params` from `tools/discovery_tools.py`, checks in
source order: year (when provided) at least 1900, page at least 1,
max_results within `[1, 100]`, sort key among the six options, language
(when provided) a 2-character alphabetic code. -/
def validateDiscoveryParams (_genreId : Option Int) (year : Option Int)
    (language : Option String) (sortBy : String) (page maxResults : Int) :
    Except String Unit :=
  if (match year with | some y => decide (y < 1900) | none => false) then
    .error "Year must be 1900 or later"
  else if page < 1 then
    .error "Page must be 1 or greater"
  else if maxResults < 1 ∨ maxResults > 100 then
    .error "max_results must be between 1 and 100"
  else if !(validSortOptions.contains sortBy) then
    .error "sort_by must be one of the valid sort options"
  else if (match language with | some l => !(langOk l) | none => false) then
    .error "language must be a 2-character ISO 639-1 code"
  else
    .ok ()

/-- `_build_discovery_params`: like the service-side `_build_params` but with
the API key first and the year always under `primary_release_year` (films
only). -/
def buildDiscoveryParams (apiKey : String) (genreId year : Option Int)
    (language : Option String) (sortBy : String) (page : Int) :
    List (String × ParamValue) :=
  let params := [("api_key", ParamValue.s apiKey),
    ("sort_by", ParamValue.s sortBy),
    ("page", ParamValue.i page),
    ("include_adult", ParamValue.b false),
    ("include_video", ParamValue.b false)]
  let params := match genreId with
    | some g => params ++ [("with_genres", ParamValue.i g)]
    | none => params
  let params := match year with
    | some y => params ++ [("primary_release_year", ParamValue.i y)]
    | none => params
  match language with
  | some l => params ++ [("with_original_language", ParamValue.s l)]
  | none => params

/-- One film entry of the dictionary `_format_discovery_response` returns. -/
structure DiscoveryFilmEntry where
  id : Int
  title : Option String
  release_date : Option String
  vote_average : Option ℚ
  overview : Option String
  genre_ids : List Int
deriving DecidableEq, Repr

/-- The dictionary returned by `discover_films_from_tmdb`. -/
structure DiscoveryResult where
  results : List DiscoveryFilmEntry
  total_results : Int
  page : Int
  total_pages : Int
deriving DecidableEq, Repr

/-- The film dictionary built inside `_format_discovery_response`. -/
def formatDiscoveryEntry (f : TMDBItem) : DiscoveryFilmEntry :=
  { id := f.id, title := f.title, release_date := f.release_date,
    vote_average := f.vote_average, overview := f.overview,
    genre_ids := f.genre_ids.getD [] }

/-- `_format_discovery_response`: map the validated films to plain
dictionaries and echo pagination metadata (`total_results`/`total_pages`
from the raw body with default 0, `page` from the caller). -/
def formatDiscoveryResponse (films : List TMDBItem) (raw : TMDBResponse)
    (page : Int) : DiscoveryResult :=
  { results := films.map formatDiscoveryEntry,
    total_results := raw.total_results.getD 0,
    page := page,
    total_pages := raw.total_pages.getD 0 }

/-- `discover_films_from_tmdb`: validate, read the API key, build params,
call the network (the `fetch` argument; the second component of the result
counts those calls), validate/filter the raw films (the tool's `TMDBFilm`
schema is the film model: only `id` is required), truncate to `max_results`,
and format.  Note the tool reads `data.get("results", [])`, unlike the
service's bare `data["results"]` subscript. -/
def discoverFilmsFromTMDB (apiKey : Option String)
    (fetch : List (String × ParamValue) → TMDBResponse)
    (genreId year : Option Int) (language : Option String) (sortBy : String)
    (page maxResults : Int) : Except String DiscoveryResult × Nat :=
  match validateDiscoveryParams genreId year language sortBy page maxResults with
  | .error e => (.error e, 0)
  | .ok _ =>
    match apiKey with
    | none => (.error "TMDB_API_KEY not configured", 0)
    | some key =>
      let params := buildDiscoveryParams key genreId year language sortBy page
      let data := fetch params
      let rawResults := data.results.getD []
      let validatedFilms := parseResponse rawResults TMDB_FILM_CONFIG
      let limitedFilms := pySliceTo validatedFilms maxResults
      (.ok (formatDiscoveryResponse limitedFilms data page), 1)

/-! ## Concrete sample data (used to evaluate the theorems on closed inputs) -/

/-- Backends whose resample call succeeds and whose alternative call raises. -/
def sampleBackends : LLMBackends :=
  { resample := fun _ _ _ => LLMOutcome.ok "The sky is blue.",
    alternative := fun _ _ _ => LLMOutcome.exc "Ollama API error: 500 - Internal server error" }

/-- A fully-populated raw film record. -/
def sampleRecordA : RawRecord :=
  { id := some 7, title := some "Alpha", name := none,
    release_date := some "2021-03-04", first_air_date := none,
    vote_average := some 7, overview := some "First", genre_ids := some [12, 16] }

/-- A raw film record with only an id. -/
def sampleRecordB : RawRecord :=
  { id := some 8, title := some "Beta", name := none,
    release_date := none, first_air_date := none,
    vote_average := none, overview := none, genre_ids := none }

/-- A raw record lacking the required identifier. -/
def sampleRecordNoId : RawRecord :=
  { id := none, title := some "Ghost", name := none,
    release_date := none, first_air_date := none,
    vote_average := none, overview := none, genre_ids := none }

/-- A catalog client returning a fixed page of three records (one invalid). -/
def sampleFetch : String → List (String × ParamValue) → TMDBResponse :=
  fun _ _ =>
    { results := some [sampleRecordA, sampleRecordB, sampleRecordNoId],
      total_results := some 41, total_pages := some 3 }

/-- A catalog client whose response body lacks the `results` key. -/
def noResultsFetch : String → List (String × ParamValue) → TMDBResponse :=
  fun _ _ => { results := none, total_results := some 41, total_pages := some 3 }

/-- A catalog client whose response body lacks `total_results`/`total_pages`. -/
def bareFetch : String → List (String × ParamValue) → TMDBResponse :=
  fun _ _ => { results := some [sampleRecordB], total_results := none, total_pages := none }

/-- The normalized `Media` that `sampleRecordA` transforms to. -/
def sampleMediaA : Media :=
  { id := "7", media_type := MediaType.film, title := "Alpha",
    date := some { year := 2021, month := 3, day := 4 }, rating := some 7,
    description := some "First", genre_ids := [12, 16] }

/-- A genre-list response body with one valid genre record. -/
def sampleGenreResponse : GenreResponse :=
  { genres := some [{ id := some 28, name := some "Action" }] }

/-- A genre-list response body lacking the `genres` key. -/
def noGenresResponse : GenreResponse :=
  { genres := none }

/-- A concrete film genre vocabulary. -/
def sampleFilmGenres : List TMDBGenre :=
  [{ id := 28, name := "Action" }, { id := 18, name := "Drama" }]

/-- A concrete television genre vocabulary sharing one name with the film
vocabulary (under a different id). -/
def sampleTVGenres : List TMDBGenre :=
  [{ id := 10759, name := "Action" }, { id := 99, name := "Documentary" }]

/-! # Theorems -/

/-! ## Orchestrator helper lemmas -/

theorem formatEntry_source (label : String) (o : LLMOutcome) :
    (formatEntry label o).source = label := by
  cases o <;> rfl

theorem formatResponses_foldl (prompt : String) (labeled : List (String × LLMOutcome))
    (acc : List LLMResponseEntry) :
    labeled.foldl
        (fun (a : LLMComparisonResult) lr =>
          { a with responses := a.responses ++ [formatEntry lr.1 lr.2] })
        { prompt := prompt, responses := acc }
      = ({ prompt := prompt,
           responses := acc ++ labeled.map (fun lr => formatEntry lr.1 lr.2) } :
          LLMComparisonResult) := by
  induction labeled generalizing acc with
  | nil => simp
  | cons hd tl ih => simp [List.foldl_cons, ih]

theorem formatResponses_eq_map (prompt : String) (labeled : List (String × LLMOutcome)) :
    formatResponses prompt labeled
      = { prompt := prompt, responses := labeled.map (fun lr => formatEntry lr.1 lr.2) } := by
  simpa [formatResponses] using formatResponses_foldl prompt labeled []

/-! ## Claims about the comparison orchestrator -/

/-- Claim C1: for every non-empty prompt, temperature in `[0,2]` and
max_tokens in `[1,4000]`, when the resample backend returns `r` and the
alternative backend raises, `compare` returns (does not raise) a comparison
result with exactly two entries in fixed label order: entry 0 (resample) has
`text = r`, `error = none`, `length = r.length`; entry 1 (alternative) has
`text = none`, the raised failure message as its error string, and
`length = 0` — regardless of which call settled first. -/
theorem compare_llms_resample_ok_alternative_exc
    (backends : LLMBackends) (prompt : String) (t : ℚ) (m : Int) (order : Bool)
    (r emsg : String)
    (hp : promptBlank prompt = false)
    (ht0 : 0 ≤ t) (ht2 : t ≤ 2) (hm1 : 1 ≤ m) (hm2 : m ≤ 4000)
    (hres : backends.resample prompt t m = .ok r)
    (halt : backends.alternative prompt t m = .exc emsg) :
    (compareLLMs backends prompt t m order).1 =
      .ok { prompt := prompt,
            responses :=
              [{ source := "claude resample", text := some r, error := none,
                 length := r.length },
               { source := "ollama alternative", text := none, error := some emsg,
                 length := 0 }] } := by
  have h1 : ¬(t < 0 ∨ t > 2) := by
    rintro (h | h)
    · exact absurd h (not_lt.2 ht0)
    · exact absurd h (not_lt.2 ht2)
  have h2 : ¬(m < 1 ∨ m > 4000) := by omega
  cases order <;>
    simp [compareLLMs, hp, h1, h2, gatherTwo, hres, halt,
      formatResponses_eq_map, formatEntry]

/-- Witness for C1 at a concrete prompt, temperature, token budget and pair
of backend outcomes. -/
theorem compare_llms_resample_ok_alternative_exc_witness :
    (compareLLMs sampleBackends "Why is the sky blue?" (7/10) 500 true).1 =
      .ok { prompt := "Why is the sky blue?",
            responses :=
              [{ source := "claude resample", text := some "The sky is blue.",
                 error := none, length := "The sky is blue.".length },
               { source := "ollama alternative", text := none,
                 error := some "Ollama API error: 500 - Internal server error",
                 length := 0 }] } :=
  compare_llms_resample_ok_alternative_exc sampleBackends "Why is the sky blue?"
    (7/10) 500 true "The sky is blue." "Ollama API error: 500 - Internal server error"
    (by decide) (by norm_num) (by norm_num) (by norm_num) (by norm_num) rfl rfl

/-- Claim C2: a blank prompt, a temperature outside `[0,2]`, or a max_tokens
outside `[1,4000]` makes `compare` raise a `ValueError` with zero backend
calls issued; conversely the inclusive bounds (temperature 0 or 2, max_tokens
1 or 4000) pass validation and the call completes without raising. -/
theorem compare_llms_validation (backends : LLMBackends) :
    (∀ (prompt : String) (t : ℚ) (m : Int) (order : Bool),
      promptBlank prompt = true →
        isError (compareLLMs backends prompt t m order).1 = true
        ∧ (compareLLMs backends prompt t m order).2 = 0)
    ∧ (∀ (prompt : String) (t : ℚ) (m : Int) (order : Bool),
      (t < 0 ∨ t > 2) →
        isError (compareLLMs backends prompt t m order).1 = true
        ∧ (compareLLMs backends prompt t m order).2 = 0)
    ∧ (∀ (prompt : String) (t : ℚ) (m : Int) (order : Bool),
      (m < 1 ∨ m > 4000) →
        isError (compareLLMs backends prompt t m order).1 = true
        ∧ (compareLLMs backends prompt t m order).2 = 0)
    ∧ (∀ (prompt : String) (m : Int) (order : Bool),
      promptBlank prompt = false → 1 ≤ m → m ≤ 4000 →
        isError (compareLLMs backends prompt 0 m order).1 = false
        ∧ isError (compareLLMs backends prompt 2 m order).1 = false)
    ∧ (∀ (prompt : String) (t : ℚ) (order : Bool),
      promptBlank prompt = false → 0 ≤ t → t ≤ 2 →
        isError (compareLLMs backends prompt t 1 order).1 = false
        ∧ isError (compareLLMs backends prompt t 4000 order).1 = false) := by
  refine ⟨?_, ?_, ?_, ?_, ?_⟩
  · intro prompt t m order h
    simp [compareLLMs, h, isError]
  · intro prompt t m order h
    unfold compareLLMs
    split_ifs <;> simp_all [isError]
  · intro prompt t m order h
    unfold compareLLMs
    split_ifs <;> simp_all [isError]
  · intro prompt m order hp hm1 hm2
    have hmOk : ¬(m < 1 ∨ m > 4000) := by omega
    constructor <;> norm_num [compareLLMs, hp, hmOk, isError]
  · intro prompt t order hp ht0 ht2
    have htOk : ¬(t < 0 ∨ t > 2) := by
      rintro (h | h)
      · exact absurd h (not_lt.2 ht0)
      · exact absurd h (not_lt.2 ht2)
    constructor <;> norm_num [compareLLMs, hp, htOk, isError]

/-- Witness for C2: concrete failing inputs issue zero calls and raise;
concrete boundary inputs pass. -/
theorem compare_llms_validation_witness :
    (isError (compareLLMs sampleBackends "   " 1 5 true).1 = true
      ∧ (compareLLMs sampleBackends "   " 1 5 true).2 = 0)
    ∧ (isError (compareLLMs sampleBackends "p" (-1) 5 true).1 = true
      ∧ (compareLLMs sampleBackends "p" (-1) 5 true).2 = 0)
    ∧ (isError (compareLLMs sampleBackends "p" 1 5000 true).1 = true
      ∧ (compareLLMs sampleBackends "p" 1 5000 true).2 = 0)
    ∧ isError (compareLLMs sampleBackends "p" 0 1 true).1 = false
    ∧ isError (compareLLMs sampleBackends "p" 2 4000 true).1 = false := by
  refine ⟨?_, ?_, ?_, ?_, ?_⟩
  · exact (compare_llms_validation sampleBackends).1 "   " 1 5 true (by decide)
  · exact (compare_llms_validation sampleBackends).2.1 "p" (-1) 5 true (by norm_num)
  · exact (compare_llms_validation sampleBackends).2.2.1 "p" 1 5000 true (by norm_num)
  · exact ((compare_llms_validation sampleBackends).2.2.2.1 "p" 1 true (by decide)
      (by norm_num) (by norm_num)).1
  · exact ((compare_llms_validation sampleBackends).2.2.2.2 "p" 2 true (by decide)
      (by norm_num) (by norm_num)).2

/-- Claim C3: every entry of a composed comparison result has exactly one of
`text`/`error` non-null, `length` equal to the character count of `text` when
`text` is non-null and 0 when `error` is non-null, and the output entry order
equals the input label order. -/
theorem format_responses_invariants (prompt : String)
    (labeled : List (String × LLMOutcome)) :
    ((formatResponses prompt labeled).responses.map (fun e => e.source)
        = labeled.map (fun lr => lr.1))
    ∧ (∀ e ∈ (formatResponses prompt labeled).responses,
        (∃ tx, e.text = some tx ∧ e.error = none ∧ e.length = tx.length)
        ∨ (e.text = none ∧ (∃ msg, e.error = some msg) ∧ e.length = 0)) := by
  rw [formatResponses_eq_map]
  constructor
  · simp [List.map_map, Function.comp, formatEntry_source]
  · intro e he
    simp only [List.mem_map] at he
    obtain ⟨lr, _, rfl⟩ := he
    cases hlr : lr.2 with
    | ok tx => exact Or.inl ⟨tx, by simp [formatEntry, hlr]⟩
    | exc msg => exact Or.inr (by simp [formatEntry, hlr])

/-- Witness for C3 on a concrete two-outcome list. -/
theorem format_responses_invariants_witness :
    (∃ tx, (formatEntry "claude resample" (LLMOutcome.ok "hi")).text = some tx
      ∧ (formatEntry "claude resample" (LLMOutcome.ok "hi")).error = none
      ∧ (formatEntry "claude resample" (LLMOutcome.ok "hi")).length = tx.length)
    ∨ ((formatEntry "claude resample" (LLMOutcome.ok "hi")).text = none
      ∧ (∃ msg, (formatEntry "claude resample" (LLMOutcome.ok "hi")).error = some msg)
      ∧ (formatEntry "claude resample" (LLMOutcome.ok "hi")).length = 0) :=
  (format_responses_invariants "q"
      [("claude resample", LLMOutcome.ok "hi"), ("ollama alternative", LLMOutcome.exc "bad")]).2
    (formatEntry "claude resample" (LLMOutcome.ok "hi"))
    (by rw [formatResponses_eq_map]; simp)

/-! ## Date parsing lemmas -/

theorem toDigit_lt_ten {c : Char} (h : isDigitChar c = true) : toDigit c < 10 := by
  simp only [isDigitChar, Bool.and_eq_true, decide_eq_true_eq] at h
  simp only [toDigit]
  omega

theorem isDigitChar_digitChar {n : Nat} (h : n < 10) :
    isDigitChar (digitChar n) = true := by
  interval_cases n <;> decide

theorem toDigit_digitChar {n : Nat} (h : n < 10) : toDigit (digitChar n) = n := by
  interval_cases n <;> decide

theorem digitChar_toDigit {c : Char} (h : isDigitChar c = true) :
    digitChar (toDigit c) = c := by
  simp only [isDigitChar, Bool.and_eq_true, decide_eq_true_eq] at h
  have harg : toDigit c + 48 = c.toNat := by
    simp only [toDigit]
    omega
  rw [digitChar, harg, Char.ofNat_toNat]

theorem daysInMonth_le_31 (y m : Nat) : daysInMonth y m ≤ 31 := by
  unfold daysInMonth
  split_ifs <;> norm_num

theorem fromIsoFormat_render (dt : SDate) (h : validYMD dt.year dt.month dt.day) :
    fromIsoFormat (renderDate dt) = some dt := by
  obtain ⟨h1, h2, h3, h4, h5, h6⟩ := h
  have hy1 : dt.year / 1000 % 10 < 10 := Nat.mod_lt _ (by norm_num)
  have hy2 : dt.year / 100 % 10 < 10 := Nat.mod_lt _ (by norm_num)
  have hy3 : dt.year / 10 % 10 < 10 := Nat.mod_lt _ (by norm_num)
  have hy4 : dt.year % 10 < 10 := Nat.mod_lt _ (by norm_num)
  have hm1 : dt.month / 10 % 10 < 10 := Nat.mod_lt _ (by norm_num)
  have hm2 : dt.month % 10 < 10 := Nat.mod_lt _ (by norm_num)
  have hd1 : dt.day / 10 % 10 < 10 := Nat.mod_lt _ (by norm_num)
  have hd2 : dt.day % 10 < 10 := Nat.mod_lt _ (by norm_num)
  have ey : 1000 * toDigit (digitChar (dt.year / 1000 % 10))
      + 100 * toDigit (digitChar (dt.year / 100 % 10))
      + 10 * toDigit (digitChar (dt.year / 10 % 10))
      + toDigit (digitChar (dt.year % 10)) = dt.year := by
    rw [toDigit_digitChar hy1, toDigit_digitChar hy2, toDigit_digitChar hy3,
      toDigit_digitChar hy4]
    omega
  have em : 10 * toDigit (digitChar (dt.month / 10 % 10))
      + toDigit (digitChar (dt.month % 10)) = dt.month := by
    rw [toDigit_digitChar hm1, toDigit_digitChar hm2]
    omega
  have h31 : daysInMonth dt.year dt.month ≤ 31 := daysInMonth_le_31 dt.year dt.month
  have ed : 10 * toDigit (digitChar (dt.day / 10 % 10))
      + toDigit (digitChar (dt.day % 10)) = dt.day := by
    rw [toDigit_digitChar hd1, toDigit_digitChar hd2]
    omega
  simp only [fromIsoFormat, renderDate, String.toList]
  simp only [isDigitChar_digitChar hy1, isDigitChar_digitChar hy2,
    isDigitChar_digitChar hy3, isDigitChar_digitChar hy4,
    isDigitChar_digitChar hm1, isDigitChar_digitChar hm2,
    isDigitChar_digitChar hd1, isDigitChar_digitChar hd2,
    beq_self_eq_true, Bool.and_self, Bool.and_true, Bool.true_and, if_true]
  simp only [ey, em, ed]
  rw [assembleYMD, if_pos ⟨h1, h3, h4, h5, h6⟩]

theorem assembleYMD_sound {y m d : Nat} {dt : SDate}
    (h : assembleYMD y m d = some dt) :
    (1 ≤ y ∧ 1 ≤ m ∧ m ≤ 12 ∧ 1 ≤ d ∧ d ≤ daysInMonth y m)
      ∧ dt = { year := y, month := m, day := d } := by
  rw [assembleYMD] at h
  split_ifs at h with hb
  · injection h with h
    exact ⟨hb, h.symm⟩

theorem fromIsoFormat_sound {s : String} {dt : SDate}
    (h : fromIsoFormat s = some dt) :
    validYMD dt.year dt.month dt.day ∧ s = renderDate dt := by
  rw [fromIsoFormat] at h
  split at h
  case h_2 => exact absurd h (by simp)
  case h_1 y1 y2 y3 y4 s1 m1 m2 s2 d1 d2 heq =>
    split_ifs at h with hguard
    · simp only [Bool.and_eq_true, beq_iff_eq] at hguard
      obtain ⟨⟨⟨⟨⟨⟨⟨⟨⟨g1, g2⟩, g3⟩, g4⟩, g5⟩, g6⟩, g7⟩, g8⟩, g9⟩, g10⟩ := hguard
      have b1 := toDigit_lt_ten g1
      have b2 := toDigit_lt_ten g2
      have b3 := toDigit_lt_ten g3
      have b4 := toDigit_lt_ten g4
      have b6 := toDigit_lt_ten g6
      have b7 := toDigit_lt_ten g7
      have b9 := toDigit_lt_ten g9
      have b10 := toDigit_lt_ten g10
      obtain ⟨⟨k1, k3, k4, k5, k6⟩, rfl⟩ := assembleYMD_sound h
      refine ⟨⟨k1, ?_, k3, k4, k5, k6⟩, ?_⟩
      · show 1000 * toDigit y1 + 100 * toDigit y2 + 10 * toDigit y3 + toDigit y4 ≤ 9999
        omega
      have hs : s = String.mk [y1, y2, y3, y4, s1, m1, m2, s2, d1, d2] := by
        cases s with
        | mk data => exact congrArg String.mk heq
      rw [hs, renderDate]
      congr 1
      have ry1 : (1000 * toDigit y1 + 100 * toDigit y2 + 10 * toDigit y3 + toDigit y4)
          / 1000 % 10 = toDigit y1 := by omega
      have ry2 : (1000 * toDigit y1 + 100 * toDigit y2 + 10 * toDigit y3 + toDigit y4)
          / 100 % 10 = toDigit y2 := by omega
      have ry3 : (1000 * toDigit y1 + 100 * toDigit y2 + 10 * toDigit y3 + toDigit y4)
          / 10 % 10 = toDigit y3 := by omega
      have ry4 : (1000 * toDigit y1 + 100 * toDigit y2 + 10 * toDigit y3 + toDigit y4)
          % 10 = toDigit y4 := by omega
      have rm1 : (10 * toDigit m1 + toDigit m2) / 10 % 10 = toDigit m1 := by omega
      have rm2 : (10 * toDigit m1 + toDigit m2) % 10 = toDigit m2 := by omega
      have rd1 : (10 * toDigit d1 + toDigit d2) / 10 % 10 = toDigit d1 := by omega
      have rd2 : (10 * toDigit d1 + toDigit d2) % 10 = toDigit d2 := by omega
      simp only [ry1, ry2, ry3, ry4, rm1, rm2, rd1, rd2,
        digitChar_toDigit g1, digitChar_toDigit g2, digitChar_toDigit g3,
        digitChar_toDigit g4, digitChar_toDigit g6, digitChar_toDigit g7,
        digitChar_toDigit g9, digitChar_toDigit g10, g5, g8]

/-- Claim C6: an absent, empty or non-ISO upstream date string normalizes to
a null date without raising (the embedding is a total function into
`Option`), and a valid `YYYY-MM-DD` string parses to exactly the calendar
date it denotes (`renderDate` is the spec-side denotation of a date as its
zero-padded ISO string). -/
theorem parse_date_spec :
    parseDate none = none
    ∧ parseDate (some "") = none
    ∧ (∀ s : String,
        (¬ ∃ dt : SDate, validYMD dt.year dt.month dt.day ∧ s = renderDate dt) →
        parseDate (some s) = none)
    ∧ (∀ dt : SDate, validYMD dt.year dt.month dt.day →
        parseDate (some (renderDate dt)) = some dt) := by
  refine ⟨rfl, rfl, ?_, ?_⟩
  · intro s hno
    cases hp : parseDate (some s) with
    | none => rfl
    | some dt =>
      exfalso
      apply hno
      have hf : fromIsoFormat s = some dt := by
        by_cases hs : s = ""
        · rw [hs] at hp
          exact absurd hp (by simp [parseDate])
        · simpa [parseDate, hs] using hp
      obtain ⟨hv, hr⟩ := fromIsoFormat_sound hf
      exact ⟨dt, hv, hr⟩
  · intro dt h
    have hne : ¬(renderDate dt = "") := by
      intro habs
      have hlen := congrArg String.length habs
      rw [show (renderDate dt).length = 10 from rfl] at hlen
      exact absurd hlen (by decide)
    simp [parseDate, hne, fromIsoFormat_render dt h]

/-- Witness for C6: a concrete garbage string parses to null, and a concrete
valid ISO date round-trips exactly. -/
theorem parse_date_spec_witness :
    parseDate (some "hello") = none
    ∧ parseDate (some (renderDate { year := 2021, month := 3, day := 4 }))
        = some { year := 2021, month := 3, day := 4 } := by
  constructor
  · apply parse_date_spec.2.2.1
    rintro ⟨dt, -, heq⟩
    have hlen := congrArg String.length heq
    rw [show ("hello" : String).length = 5 from rfl,
      show (renderDate dt).length = 10 from rfl] at hlen
    exact absurd hlen (by decide)
  · exact parse_date_spec.2.2.2 { year := 2021, month := 3, day := 4 } (by decide)

/-! ## Record validation lemmas -/

theorem parseResponse_foldl (config : TMDBMediaConfig) (raws : List RawRecord)
    (acc : List TMDBItem) :
    raws.foldl
        (fun a r =>
          match validateRecord config.model_class r with
          | some item => a ++ [item]
          | none => a)
        acc
      = acc ++ (raws.filter (fun r => r.id.isSome)).map (extractItem config.model_class) := by
  induction raws generalizing acc with
  | nil => simp
  | cons r rs ih =>
    cases hr : r.id with
    | none =>
      have hv : validateRecord config.model_class r = none := by
        simp [validateRecord, hr]
      simp only [List.foldl_cons, hv]
      rw [ih]
      simp [List.filter_cons, hr]
    | some i =>
      have hv : validateRecord config.model_class r
          = some (extractItem config.model_class r) := by
        simp [validateRecord, hr]
      simp only [List.foldl_cons, hv]
      rw [ih]
      simp [List.filter_cons, hr]

/-- Claim C7: records lacking an identifier are excluded, survivors are the
projection of exactly the records that had an identifier, in input order,
and the surviving `Media` count equals the count of records with an
identifier. -/
theorem parse_response_id_filter (raws : List RawRecord) (config : TMDBMediaConfig)
    (mt : MediaType) :
    parseResponse raws config
      = (raws.filter (fun r => r.id.isSome)).map (extractItem config.model_class)
    ∧ (parseResponse raws config).length
        = (raws.filter (fun r => r.id.isSome)).length
    ∧ ((parseResponse raws config).map
          (fun item => toStandardMedia item config mt)).length
        = (raws.filter (fun r => r.id.isSome)).length := by
  have h : parseResponse raws config
      = (raws.filter (fun r => r.id.isSome)).map (extractItem config.model_class) := by
    simpa [parseResponse] using parseResponse_foldl config raws []
  exact ⟨h, by rw [h]; simp, by rw [h]; simp⟩

/-! ## Truncation and pagination of `get_media` -/

/-- Claim C5 (counterexample to the claim as stated): with `max_results = -1`
and an upstream page of two valid records, `get_media` returns one result —
Python's `list[:n]` drops elements from the end for negative `n` and the
service never validates `max_results` — so "at most N results for every N"
fails at `N = -1` (a returned list of length 1 is not of length at most -1). -/
theorem get_media_max_results_counterexample :
    (getMedia sampleFetch MediaType.film none none none none 1 (-1)).1
      = Except.ok
          { results := [sampleMediaA],
            total_results := 41, page := 1, total_pages := 3 }
    ∧ ¬((1 : Int) ≤ -1) := by
  constructor
  · rfl
  · norm_num

/-- Claim C5 (amended: for every `max_results = N ≥ 0`): `get_media` returns
the transformed list truncated client-side to at most `N` entries, preserving
order, while `total_results`/`total_pages` echo the provider's raw values
(0 when the key is absent) unaffected by truncation, and `page` echoes the
caller's argument. -/
theorem get_media_truncation
    (fetch : String → List (String × ParamValue) → TMDBResponse)
    (mediaType : MediaType) (config : TMDBMediaConfig)
    (hcfg : configMap mediaType = some config)
    (genreId year : Option Int) (language sortBy : Option String)
    (page maxResults : Int) (rawResults : List RawRecord)
    (hres : (fetch ("/discover/" ++ config.endpoint)
        (buildParams config genreId year language sortBy page)).results
      = some rawResults)
    (hN : 0 ≤ maxResults) :
    (getMedia fetch mediaType genreId year language sortBy page maxResults).1
      = Except.ok
          { results := ((parseResponse rawResults config).map
              (fun item => toStandardMedia item config mediaType)).take maxResults.toNat,
            total_results := (fetch ("/discover/" ++ config.endpoint)
              (buildParams config genreId year language sortBy page)).total_results.getD 0,
            page := page,
            total_pages := (fetch ("/discover/" ++ config.endpoint)
              (buildParams config genreId year language sortBy page)).total_pages.getD 0 }
    ∧ ((((parseResponse rawResults config).map
          (fun item => toStandardMedia item config mediaType)).take
            maxResults.toNat).length : Int) ≤ maxResults := by
  constructor
  · simp only [getMedia, hcfg, hres, pySliceTo, if_pos hN]
  · rw [List.length_take]
    omega

/-- Witness for the amended C5 at a concrete client, media type and page. -/
theorem get_media_truncation_witness :
    (getMedia sampleFetch MediaType.film none none none none 1 1).1
      = Except.ok
          { results := ((parseResponse [sampleRecordA, sampleRecordB, sampleRecordNoId]
                TMDB_FILM_CONFIG).map
              (fun item => toStandardMedia item TMDB_FILM_CONFIG MediaType.film)).take
                (1 : Int).toNat,
            total_results := (sampleFetch ("/discover/" ++ TMDB_FILM_CONFIG.endpoint)
              (buildParams TMDB_FILM_CONFIG none none none none 1)).total_results.getD 0,
            page := 1,
            total_pages := (sampleFetch ("/discover/" ++ TMDB_FILM_CONFIG.endpoint)
              (buildParams TMDB_FILM_CONFIG none none none none 1)).total_pages.getD 0 }
    ∧ ((((parseResponse [sampleRecordA, sampleRecordB, sampleRecordNoId]
          TMDB_FILM_CONFIG).map
        (fun item => toStandardMedia item TMDB_FILM_CONFIG MediaType.film)).take
          (1 : Int).toNat).length : Int) ≤ 1 :=
  get_media_truncation sampleFetch MediaType.film TMDB_FILM_CONFIG rfl
    none none none none 1 1 [sampleRecordA, sampleRecordB, sampleRecordNoId]
    rfl (by norm_num)

/-! ## Missing response keys -/

/-- Claim C10: a discover response without the `results` key makes
`get_media` raise `KeyError` (after the one client call, not an empty page);
missing `total_results`/`total_pages` are tolerated as 0; and `get_genres`
treats a response without the `genres` key as an empty vocabulary. -/
theorem response_missing_keys :
    (∀ (fetch : String → List (String × ParamValue) → TMDBResponse)
        (mediaType : MediaType) (config : TMDBMediaConfig)
        (genreId year : Option Int) (language sortBy : Option String)
        (page maxResults : Int),
      configMap mediaType = some config →
      (fetch ("/discover/" ++ config.endpoint)
          (buildParams config genreId year language sortBy page)).results = none →
      getMedia fetch mediaType genreId year language sortBy page maxResults
        = (Except.error (ServiceError.keyError "results"), 1))
    ∧ (∀ (fetch : String → List (String × ParamValue) → TMDBResponse)
        (mediaType : MediaType) (config : TMDBMediaConfig)
        (genreId year : Option Int) (language sortBy : Option String)
        (page maxResults : Int) (rawResults : List RawRecord),
      configMap mediaType = some config →
      (fetch ("/discover/" ++ config.endpoint)
          (buildParams config genreId year language sortBy page)).results
        = some rawResults →
      (fetch ("/discover/" ++ config.endpoint)
          (buildParams config genreId year language sortBy page)).total_results = none →
      (fetch ("/discover/" ++ config.endpoint)
          (buildParams config genreId year language sortBy page)).total_pages = none →
      ∃ ml : MediaList,
        (getMedia fetch mediaType genreId year language sortBy page maxResults).1
          = Except.ok ml
        ∧ ml.total_results = 0 ∧ ml.total_pages = 0)
    ∧ (∀ filmData tvData : GenreResponse, filmData.genres = none →
        getGenres filmData tvData = getGenres { genres := some [] } tvData)
    ∧ (∀ filmData tvData : GenreResponse, tvData.genres = none →
        getGenres filmData tvData = getGenres filmData { genres := some [] }) := by
  refine ⟨?_, ?_, ?_, ?_⟩
  · intro fetch mediaType config genreId year language sortBy page maxResults hcfg hres
    simp only [getMedia, hcfg, hres]
  · intro fetch mediaType config genreId year language sortBy page maxResults rawResults
      hcfg hres htr htp
    have hmain : (getMedia fetch mediaType genreId year language sortBy page maxResults).1
        = Except.ok
            { results := pySliceTo ((parseResponse rawResults config).map
                (fun item => toStandardMedia item config mediaType)) maxResults,
              total_results := (fetch ("/discover/" ++ config.endpoint)
                (buildParams config genreId year language sortBy page)).total_results.getD 0,
              page := page,
              total_pages := (fetch ("/discover/" ++ config.endpoint)
                (buildParams config genreId year language sortBy page)).total_pages.getD 0 } := by
      simp only [getMedia, hcfg, hres]
    exact ⟨_, hmain, by simp [htr], by simp [htp]⟩
  · intro filmData tvData h
    simp [getGenres, h]
  · intro filmData tvData h
    simp [getGenres, h]

/-- Witness for C10 on concrete clients: a body without `results` raises
`KeyError`, a body without totals yields zeros, and a missing `genres` key
behaves as an empty vocabulary. -/
theorem response_missing_keys_witness :
    getMedia noResultsFetch MediaType.film none none none none 1 20
      = (Except.error (ServiceError.keyError "results"), 1)
    ∧ (∃ ml : MediaList,
        (getMedia bareFetch MediaType.television none none none none 2 5).1
          = Except.ok ml
        ∧ ml.total_results = 0 ∧ ml.total_pages = 0)
    ∧ getGenres noGenresResponse sampleGenreResponse
        = getGenres { genres := some [] } sampleGenreResponse := by
  refine ⟨?_, ?_, ?_⟩
  · exact response_missing_keys.1 noResultsFetch MediaType.film TMDB_FILM_CONFIG
      none none none none 1 20 rfl rfl
  · exact response_missing_keys.2.1 bareFetch MediaType.television
      TMDB_TELEVISION_CONFIG none none none none 2 5 [sampleRecordB] rfl rfl rfl rfl
  · exact response_missing_keys.2.2.1 noGenresResponse sampleGenreResponse rfl

/-! ## Validation of the discovery tool -/

theorem isError_false_ok {ε α : Type} (e : Except ε α) (h : isError e = false) :
    ∃ a, e = .ok a := by
  cases e <;> simp_all [isError]

theorem discover_validate_error (apiKey : Option String)
    (fetch : List (String × ParamValue) → TMDBResponse)
    (genreId year : Option Int) (language : Option String) (sortBy : String)
    (page maxResults : Int)
    (h : isError (validateDiscoveryParams genreId year language sortBy page maxResults)
      = true) :
    isError (discoverFilmsFromTMDB apiKey fetch genreId year language sortBy
        page maxResults).1 = true
    ∧ (discoverFilmsFromTMDB apiKey fetch genreId year language sortBy
        page maxResults).2 = 0 := by
  unfold discoverFilmsFromTMDB
  cases hv : validateDiscoveryParams genreId year language sortBy page maxResults with
  | error e => exact ⟨rfl, rfl⟩
  | ok u =>
    rw [hv] at h
    exact absurd h (by simp [isError])

theorem validate_ok_conditions (genreId year : Option Int) (language : Option String)
    (sortBy : String) (page maxResults : Int)
    (h : validateDiscoveryParams genreId year language sortBy page maxResults = .ok ()) :
    (∀ y0, year = some y0 → 1900 ≤ y0)
    ∧ 1 ≤ page ∧ 1 ≤ maxResults ∧ maxResults ≤ 100
    ∧ validSortOptions.contains sortBy = true
    ∧ (∀ l, language = some l → langOk l = true) := by
  unfold validateDiscoveryParams at h
  split_ifs at h with h1 h2 h3 h4 h5
  try simp at h
  refine ⟨?_, by omega, by omega, by omega, ?_, ?_⟩
  · intro y0 hy
    subst hy
    simp only [decide_eq_true_eq] at h1
    omega
  · simpa using h4
  · intro l hl
    subst hl
    simpa using h5

/-- Claim C8: every discovery call with an out-of-range year, page or
max_results, an invalid sort key, or an invalid language code raises a
`ValueError` with zero network calls made; and `get_media` on a media type
with no registered adapter raises the unsupported-media-type `ValueError`
with zero catalog-client calls. -/
theorem discovery_validation_fails_fast :
    (∀ (apiKey : Option String) (fetch : List (String × ParamValue) → TMDBResponse)
        (genreId : Option Int) (y : Int) (language : Option String) (sortBy : String)
        (page maxResults : Int), y < 1900 →
      isError (discoverFilmsFromTMDB apiKey fetch genreId (some y) language sortBy
          page maxResults).1 = true
      ∧ (discoverFilmsFromTMDB apiKey fetch genreId (some y) language sortBy
          page maxResults).2 = 0)
    ∧ (∀ (apiKey : Option String) (fetch : List (String × ParamValue) → TMDBResponse)
        (genreId year : Option Int) (language : Option String) (sortBy : String)
        (page maxResults : Int), page < 1 →
      isError (discoverFilmsFromTMDB apiKey fetch genreId year language sortBy
          page maxResults).1 = true
      ∧ (discoverFilmsFromTMDB apiKey fetch genreId year language sortBy
          page maxResults).2 = 0)
    ∧ (∀ (apiKey : Option String) (fetch : List (String × ParamValue) → TMDBResponse)
        (genreId year : Option Int) (language : Option String) (sortBy : String)
        (page maxResults : Int), (maxResults < 1 ∨ maxResults > 100) →
      isError (discoverFilmsFromTMDB apiKey fetch genreId year language sortBy
          page maxResults).1 = true
      ∧ (discoverFilmsFromTMDB apiKey fetch genreId year language sortBy
          page maxResults).2 = 0)
    ∧ (∀ (apiKey : Option String) (fetch : List (String × ParamValue) → TMDBResponse)
        (genreId year : Option Int) (language : Option String) (sortBy : String)
        (page maxResults : Int), validSortOptions.contains sortBy = false →
      isError (discoverFilmsFromTMDB apiKey fetch genreId year language sortBy
          page maxResults).1 = true
      ∧ (discoverFilmsFromTMDB apiKey fetch genreId year language sortBy
          page maxResults).2 = 0)
    ∧ (∀ (apiKey : Option String) (fetch : List (String × ParamValue) → TMDBResponse)
        (genreId year : Option Int) (l : String) (sortBy : String)
        (page maxResults : Int), langOk l = false →
      isError (discoverFilmsFromTMDB apiKey fetch genreId year (some l) sortBy
          page maxResults).1 = true
      ∧ (discoverFilmsFromTMDB apiKey fetch genreId year (some l) sortBy
          page maxResults).2 = 0)
    ∧ (∀ (fetch : String → List (String × ParamValue) → TMDBResponse)
        (mediaType : MediaType) (genreId year : Option Int)
        (language sortBy : Option String) (page maxResults : Int),
      configMap mediaType = none →
      getMedia fetch mediaType genreId year language sortBy page maxResults
        = (Except.error (ServiceError.valueError
            ("Unsupported media type: " ++ mediaTypeStr mediaType)), 0)) := by
  refine ⟨?_, ?_, ?_, ?_, ?_, ?_⟩
  · intro apiKey fetch genreId y language sortBy page maxResults hy
    apply discover_validate_error
    cases hb : isError (validateDiscoveryParams genreId (some y) language sortBy
        page maxResults) with
    | true => rfl
    | false =>
      obtain ⟨u, hu⟩ := isError_false_ok _ hb
      cases u
      have hok := (validate_ok_conditions genreId (some y) language sortBy
        page maxResults hu).1 y rfl
      omega
  · intro apiKey fetch genreId year language sortBy page maxResults hp
    apply discover_validate_error
    cases hb : isError (validateDiscoveryParams genreId year language sortBy
        page maxResults) with
    | true => rfl
    | false =>
      obtain ⟨u, hu⟩ := isError_false_ok _ hb
      cases u
      have hok := (validate_ok_conditions genreId year language sortBy
        page maxResults hu).2.1
      omega
  · intro apiKey fetch genreId year language sortBy page maxResults hm
    apply discover_validate_error
    cases hb : isError (validateDiscoveryParams genreId year language sortBy
        page maxResults) with
    | true => rfl
    | false =>
      obtain ⟨u, hu⟩ := isError_false_ok _ hb
      cases u
      have hok := (validate_ok_conditions genreId year language sortBy
        page maxResults hu).2.2
      omega
  · intro apiKey fetch genreId year language sortBy page maxResults hs
    apply discover_validate_error
    cases hb : isError (validateDiscoveryParams genreId year language sortBy
        page maxResults) with
    | true => rfl
    | false =>
      obtain ⟨u, hu⟩ := isError_false_ok _ hb
      cases u
      have hok := (validate_ok_conditions genreId year language sortBy
        page maxResults hu).2.2.2.2.1
      rw [hok] at hs
      exact absurd hs (by simp)
  · intro apiKey fetch genreId year l sortBy page maxResults hl
    apply discover_validate_error
    cases hb : isError (validateDiscoveryParams genreId year (some l) sortBy
        page maxResults) with
    | true => rfl
    | false =>
      obtain ⟨u, hu⟩ := isError_false_ok _ hb
      cases u
      have hok := (validate_ok_conditions genreId year (some l) sortBy
        page maxResults hu).2.2.2.2.2 l rfl
      rw [hok] at hl
      exact absurd hl (by simp)
  · intro fetch mediaType genreId year language sortBy page maxResults hcm
    simp only [getMedia, hcm]

/-- Witness for C8: concrete invalid inputs raise with zero calls; a media
type without an adapter raises with zero calls. -/
theorem discovery_validation_fails_fast_witness :
    (isError (discoverFilmsFromTMDB (some "k") (fun _ => bareFetch "" [])
        none (some 1800) none "popularity.desc" 1 20).1 = true
      ∧ (discoverFilmsFromTMDB (some "k") (fun _ => bareFetch "" [])
          none (some 1800) none "popularity.desc" 1 20).2 = 0)
    ∧ (isError (discoverFilmsFromTMDB (some "k") (fun _ => bareFetch "" [])
        none none none "popularity.desc" 0 20).1 = true
      ∧ (discoverFilmsFromTMDB (some "k") (fun _ => bareFetch "" [])
          none none none "popularity.desc" 0 20).2 = 0)
    ∧ (isError (discoverFilmsFromTMDB (some "k") (fun _ => bareFetch "" [])
        none none none "popularity.desc" 1 101).1 = true
      ∧ (discoverFilmsFromTMDB (some "k") (fun _ => bareFetch "" [])
          none none none "popularity.desc" 1 101).2 = 0)
    ∧ (isError (discoverFilmsFromTMDB (some "k") (fun _ => bareFetch "" [])
        none none none "rating.desc" 1 20).1 = true
      ∧ (discoverFilmsFromTMDB (some "k") (fun _ => bareFetch "" [])
          none none none "rating.desc" 1 20).2 = 0)
    ∧ (isError (discoverFilmsFromTMDB (some "k") (fun _ => bareFetch "" [])
        none none (some "eng") "popularity.desc" 1 20).1 = true
      ∧ (discoverFilmsFromTMDB (some "k") (fun _ => bareFetch "" [])
          none none (some "eng") "popularity.desc" 1 20).2 = 0)
    ∧ getMedia bareFetch MediaType.podcast none none none none 1 20
        = (Except.error (ServiceError.valueError
            ("Unsupported media type: " ++ mediaTypeStr MediaType.podcast)), 0) := by
  refine ⟨?_, ?_, ?_, ?_, ?_, ?_⟩
  · exact discovery_validation_fails_fast.1 (some "k") (fun _ => bareFetch "" [])
      none 1800 none "popularity.desc" 1 20 (by norm_num)
  · exact discovery_validation_fails_fast.2.1 (some "k") (fun _ => bareFetch "" [])
      none none none "popularity.desc" 0 20 (by norm_num)
  · exact discovery_validation_fails_fast.2.2.1 (some "k") (fun _ => bareFetch "" [])
      none none none "popularity.desc" 1 101 (by norm_num)
  · exact discovery_validation_fails_fast.2.2.2.1 (some "k") (fun _ => bareFetch "" [])
      none none none "rating.desc" 1 20 (by decide)
  · exact discovery_validation_fails_fast.2.2.2.2.1 (some "k") (fun _ => bareFetch "" [])
      none none "eng" "popularity.desc" 1 20 (by decide)
  · exact discovery_validation_fails_fast.2.2.2.2.2 bareFetch MediaType.podcast
      none none none none 1 20 rfl

/-! ## Provider query parameters -/

/-- Claim C9: the built provider query always carries `sort_by` (caller's
value, defaulting to popularity descending), `page`, `include_adult=false`
and `include_video=false`; carries `with_genres`/year/`with_original_language`
exactly when the corresponding argument is provided, the year under the
adapter's media-type-specific parameter name; and no other keys. -/
theorem build_params_spec (config : TMDBMediaConfig)
    (hc : config = TMDB_FILM_CONFIG ∨ config = TMDB_TELEVISION_CONFIG)
    (genreId year : Option Int) (language sortBy : Option String) (page : Int) :
    (buildParams config genreId year language sortBy page).lookup "sort_by"
        = some (ParamValue.s (sortBy.getD "popularity.desc"))
    ∧ (buildParams config genreId year language sortBy page).lookup "page"
        = some (ParamValue.i page)
    ∧ (buildParams config genreId year language sortBy page).lookup "include_adult"
        = some (ParamValue.b false)
    ∧ (buildParams config genreId year language sortBy page).lookup "include_video"
        = some (ParamValue.b false)
    ∧ (buildParams config genreId year language sortBy page).lookup "with_genres"
        = genreId.map ParamValue.i
    ∧ (buildParams config genreId year language sortBy page).lookup config.year_param
        = year.map ParamValue.i
    ∧ (buildParams config genreId year language sortBy page).lookup
          "with_original_language"
        = language.map ParamValue.s
    ∧ (buildParams config genreId year language sortBy page).map Prod.fst
        = ["sort_by", "page", "include_adult", "include_video"]
          ++ (match genreId with | some _ => ["with_genres"] | none => [])
          ++ (match year with | some _ => [config.year_param] | none => [])
          ++ (match language with | some _ => ["with_original_language"] | none => [])
    ∧ TMDB_FILM_CONFIG.year_param = "primary_release_year"
    ∧ TMDB_TELEVISION_CONFIG.year_param = "first_air_date_year" := by
  rcases hc with rfl | rfl <;>
    rcases genreId with _ | g <;> rcases year with _ | y <;> rcases language with _ | l <;>
      simp [buildParams, List.lookup, TMDB_FILM_CONFIG, TMDB_TELEVISION_CONFIG]

/-- Witness for C9 at the film adapter with every optional argument provided
and no sort override. -/
theorem build_params_spec_witness :
    (buildParams TMDB_FILM_CONFIG (some 28) (some 1999) (some "en") none 2).lookup "sort_by"
        = some (ParamValue.s ((none : Option String).getD "popularity.desc"))
    ∧ (buildParams TMDB_FILM_CONFIG (some 28) (some 1999) (some "en") none 2).lookup "page"
        = some (ParamValue.i 2)
    ∧ (buildParams TMDB_FILM_CONFIG (some 28) (some 1999) (some "en") none 2).lookup
          "include_adult"
        = some (ParamValue.b false)
    ∧ (buildParams TMDB_FILM_CONFIG (some 28) (some 1999) (some "en") none 2).lookup
          "include_video"
        = some (ParamValue.b false)
    ∧ (buildParams TMDB_FILM_CONFIG (some 28) (some 1999) (some "en") none 2).lookup
          "with_genres"
        = (some (28 : Int)).map ParamValue.i
    ∧ (buildParams TMDB_FILM_CONFIG (some 28) (some 1999) (some "en") none 2).lookup
          TMDB_FILM_CONFIG.year_param
        = (some (1999 : Int)).map ParamValue.i
    ∧ (buildParams TMDB_FILM_CONFIG (some 28) (some 1999) (some "en") none 2).lookup
          "with_original_language"
        = (some "en").map ParamValue.s
    ∧ (buildParams TMDB_FILM_CONFIG (some 28) (some 1999) (some "en") none 2).map Prod.fst
        = ["sort_by", "page", "include_adult", "include_video"]
          ++ (match (some (28 : Int)) with | some _ => ["with_genres"] | none => [])
          ++ (match (some (1999 : Int)) with
              | some _ => [TMDB_FILM_CONFIG.year_param] | none => [])
          ++ (match (some "en") with | some _ => ["with_original_language"] | none => [])
    ∧ TMDB_FILM_CONFIG.year_param = "primary_release_year"
    ∧ TMDB_TELEVISION_CONFIG.year_param = "first_air_date_year" :=
  build_params_spec TMDB_FILM_CONFIG (Or.inl rfl) (some 28) (some 1999) (some "en") none 2

/-! ## Genre merge lemmas -/

theorem dictInsert_fresh (m : List Genre) (g : Genre)
    (h : ∀ x ∈ m, x.name ≠ g.name) :
    dictInsert m g = m ++ [g] := by
  induction m with
  | nil => rfl
  | cons a t ih =>
    rw [dictInsert, if_neg (h a (List.mem_cons_self a t)),
      ih (fun x hx => h x (List.mem_cons_of_mem a hx))]
    rfl

theorem film_fold_eq (F : List TMDBGenre) (acc : List Genre)
    (hd : ∀ fg ∈ F, ∀ g ∈ acc, g.name ≠ fg.name)
    (hF : (namesOf F).Nodup) :
    F.foldl (fun m fg => dictInsert m
        { id := fg.id, name := fg.name, has_films := true, has_tv_shows := false }) acc
      = acc ++ F.map (fun fg => (⟨fg.id, fg.name, true, false⟩ : Genre)) := by
  induction F generalizing acc with
  | nil => simp
  | cons fg F' ih =>
    obtain ⟨hhead, hF'⟩ : fg.name ∉ namesOf F' ∧ (namesOf F').Nodup := by
      simpa [namesOf, List.nodup_cons] using hF
    rw [List.foldl_cons, dictInsert_fresh acc _
      (fun x hx => hd fg (List.mem_cons_self fg F') x hx)]
    have hd' : ∀ fg' ∈ F', ∀ g ∈ acc ++ [(⟨fg.id, fg.name, true, false⟩ : Genre)],
        g.name ≠ fg'.name := by
      intro fg' hfg' g hg
      rcases List.mem_append.1 hg with hg | hg
      · exact hd fg' (List.mem_cons_of_mem fg hfg') g hg
      · rw [List.mem_singleton.1 hg]
        intro hcontra
        exact hhead (by
          simp only [namesOf, List.mem_map]
          exact ⟨fg', hfg', hcontra.symm⟩)
    rw [ih _ hd' hF']
    simp

theorem containsName_eq_false (m : List Genre) (n : String)
    (h : ∀ g ∈ m, g.name ≠ n) : containsName m n = false := by
  simp only [containsName, List.any_eq_false]
  intro g hg
  simpa using h g hg

theorem containsName_eq_true (m : List Genre) (n : String)
    (h : ∃ g ∈ m, g.name = n) : containsName m n = true := by
  obtain ⟨g, hg, he⟩ := h
  simp only [containsName, List.any_eq_true]
  exact ⟨g, hg, by simpa using he⟩

theorem markTVShows_append_left (A B : List Genre) (n : String)
    (h : containsName A n = true) :
    markTVShows (A ++ B) n = markTVShows A n ++ B := by
  induction A with
  | nil => simp [containsName] at h
  | cons a t ih =>
    by_cases ha : a.name = n
    · simp [markTVShows, ha]
    · have ht : containsName t n = true := by
        simpa [containsName, ha] using h
      simp [markTVShows, ha, ih ht]

theorem markTVShows_map_flag (F : List TMDBGenre) (flagf : TMDBGenre → Bool) (n : String)
    (hF : (namesOf F).Nodup) :
    markTVShows (F.map fun fg => (⟨fg.id, fg.name, true, flagf fg⟩ : Genre)) n
      = F.map fun fg =>
          (⟨fg.id, fg.name, true, flagf fg || decide (fg.name = n)⟩ : Genre) := by
  induction F with
  | nil => rfl
  | cons fg F' ih =>
    obtain ⟨hhead, hF'⟩ : fg.name ∉ namesOf F' ∧ (namesOf F').Nodup := by
      simpa [namesOf, List.nodup_cons] using hF
    by_cases h : fg.name = n
    · simp only [List.map_cons, markTVShows, if_pos h]
      congr 1
      · simp [h]
      · apply List.map_congr_left
        intro fg' hfg'
        have hne : fg'.name ≠ n := by
          intro he
          apply hhead
          rw [← h] at he
          simp only [namesOf, List.mem_map]
          exact ⟨fg', hfg', he⟩
        simp [hne]
    · simp only [List.map_cons, markTVShows, if_neg h]
      rw [ih hF']
      congr 1
      simp [h]

theorem tv_step_merged (F : List TMDBGenre) (hF : (namesOf F).Nodup)
    (P : List TMDBGenre) (t : TMDBGenre) (ht : t.name ∉ namesOf P) :
    (if containsName (mergedGenres F P) t.name
      then markTVShows (mergedGenres F P) t.name
      else mergedGenres F P
        ++ [{ id := t.id, name := t.name, has_films := false, has_tv_shows := true }])
    = mergedGenres F (P ++ [t]) := by
  by_cases hmem : t.name ∈ namesOf F
  · obtain ⟨fg0, hfg0, hname0⟩ : ∃ fg ∈ F, fg.name = t.name := by
      simpa [namesOf, List.mem_map] using hmem
    have hcA : containsName (F.map fun fg =>
        (⟨fg.id, fg.name, true, decide (fg.name ∈ namesOf P)⟩ : Genre)) t.name = true := by
      apply containsName_eq_true
      exact ⟨_, List.mem_map_of_mem _ hfg0, by simpa using hname0⟩
    have hcons : containsName (mergedGenres F P) t.name = true := by
      apply containsName_eq_true
      exact ⟨_, List.mem_append_left _ (List.mem_map_of_mem _ hfg0), by simpa using hname0⟩
    rw [if_pos hcons, mergedGenres, markTVShows_append_left _ _ _ hcA,
      markTVShows_map_flag F _ t.name hF, mergedGenres]
    congr 1
    · apply List.map_congr_left
      intro fg hfg
      have hflag : (decide (fg.name ∈ namesOf P) || decide (fg.name = t.name))
          = decide (fg.name ∈ namesOf (P ++ [t])) := by
        have hnames : namesOf (P ++ [t]) = namesOf P ++ [t.name] := by
          simp [namesOf]
        rw [hnames]
        by_cases h1 : fg.name ∈ namesOf P <;> by_cases h2 : fg.name = t.name <;>
          simp [h1, h2]
      rw [hflag]
    · rw [List.filter_append]
      have hdrop : ([t].filter fun tg => decide (tg.name ∉ namesOf F)) = [] := by
        simp [hmem]
      rw [hdrop, List.append_nil]
  · have hcons : containsName (mergedGenres F P) t.name = false := by
      apply containsName_eq_false
      intro g hg
      rcases List.mem_append.1 hg with hg | hg
      · obtain ⟨fg, hfg, rfl⟩ := List.mem_map.1 hg
        intro he
        apply hmem
        simp only [namesOf, List.mem_map]
        exact ⟨fg, hfg, by simpa using he⟩
      · obtain ⟨tg, htg, rfl⟩ := List.mem_map.1 hg
        have htgP : tg ∈ P := (List.mem_filter.1 htg).1
        intro he
        apply ht
        simp only [namesOf, List.mem_map]
        exact ⟨tg, htgP, by simpa using he⟩
    rw [if_neg (by simp [hcons]), mergedGenres, mergedGenres, List.filter_append]
    have hfilm : (F.map fun fg =>
          (⟨fg.id, fg.name, true, decide (fg.name ∈ namesOf P)⟩ : Genre))
        = F.map fun fg =>
          (⟨fg.id, fg.name, true, decide (fg.name ∈ namesOf (P ++ [t]))⟩ : Genre) := by
      apply List.map_congr_left
      intro fg hfg
      have hne : fg.name ≠ t.name := by
        intro he
        apply hmem
        simp only [namesOf, List.mem_map]
        exact ⟨fg, hfg, he⟩
      have hiff : (fg.name ∈ namesOf (P ++ [t])) ↔ (fg.name ∈ namesOf P) := by
        simp [namesOf, hne]
      simp [hiff]
    have hkeep : ([t].filter fun tg => decide (tg.name ∉ namesOf F)) = [t] := by
      simp [hmem]
    rw [hkeep, List.map_append, ← hfilm]
    simp [List.append_assoc]

theorem tv_fold_merged (F : List TMDBGenre) (hF : (namesOf F).Nodup)
    (T : List TMDBGenre) :
    ∀ P : List TMDBGenre, (namesOf P ++ namesOf T).Nodup →
    T.foldl
        (fun m tg => if containsName m tg.name then markTVShows m tg.name
          else m ++ [(⟨tg.id, tg.name, false, true⟩ : Genre)])
        (mergedGenres F P)
      = mergedGenres F (P ++ T) := by
  induction T with
  | nil =>
    intro P _
    simp
  | cons t T' ih =>
    intro P hnodup
    have ht : t.name ∉ namesOf P := by
      rw [List.nodup_append] at hnodup
      intro habs
      exact hnodup.2.2 habs (by simp [namesOf])
    have hnd' : (namesOf (P ++ [t]) ++ namesOf T').Nodup := by
      have : namesOf (P ++ [t]) ++ namesOf T' = namesOf P ++ namesOf (t :: T') := by
        simp [namesOf]
      rw [this]
      exact hnodup
    rw [List.foldl_cons]
    rw [tv_step_merged F hF P t ht]
    rw [ih (P ++ [t]) hnd']
    rw [List.append_assoc]
    rfl

theorem count_name_of_nodup (L : List Genre) (n : String)
    (hL : (L.map (fun g => g.name)).Nodup) :
    (L.filter fun g => decide (g.name = n)).length
      = if n ∈ L.map (fun g => g.name) then 1 else 0 := by
  induction L with
  | nil => simp
  | cons g L' ih =>
    obtain ⟨hh, hL'⟩ : g.name ∉ L'.map (fun g => g.name) ∧ (L'.map (fun g => g.name)).Nodup := by
      simpa [List.nodup_cons] using hL
    by_cases hg : g.name = n
    · subst hg
      simp [List.filter_cons, ih hL', hh]
    · simp [List.filter_cons, hg, ih hL', Ne.symm hg]

/-- Claim C4: with duplicate-free film and television vocabularies,
`_combine_genre_lists` produces exactly one `Genre` per distinct name — a
name in both vocabularies yields one entry with both availability flags true
and the film-side id (film is processed first), a name in only one
vocabulary yields one entry with only that flag — and output order is
insertion order: all film genres first, TV-only genres appended after
(`mergedGenres` is the spec-side closed form of exactly that list). -/
theorem combine_genre_lists_merge (F T : List TMDBGenre)
    (hF : (namesOf F).Nodup) (hT : (namesOf T).Nodup) :
    (combineGenreLists F T).genres = mergedGenres F T
    ∧ ∀ n, ((combineGenreLists F T).genres.filter fun g => decide (g.name = n)).length
        = if n ∈ namesOf F ∨ n ∈ namesOf T then 1 else 0 := by
  have hmain : (combineGenreLists F T).genres = mergedGenres F T := by
    simp only [combineGenreLists]
    rw [film_fold_eq F [] (by simp) hF]
    have h0 : ([] : List Genre) ++ F.map (fun fg => (⟨fg.id, fg.name, true, false⟩ : Genre))
        = mergedGenres F [] := by
      simp [mergedGenres, namesOf]
    rw [h0, tv_fold_merged F hF T [] (by simpa [namesOf] using hT)]
    simp
  refine ⟨hmain, ?_⟩
  intro n
  rw [hmain]
  have hnames : (mergedGenres F T).map (fun g => g.name)
      = namesOf F ++ (T.filter fun tg => decide (tg.name ∉ namesOf F)).map
          (fun tg => tg.name) := by
    simp only [mergedGenres, namesOf, List.map_append, List.map_map]
    rfl
  have hndfil : ((T.filter fun tg => decide (tg.name ∉ namesOf F)).map
      (fun tg => tg.name)).Nodup := by
    apply hT.sublist
    exact (List.filter_sublist T).map (fun tg => tg.name)
  have hdisj : (namesOf F).Disjoint ((T.filter fun tg =>
      decide (tg.name ∉ namesOf F)).map (fun tg => tg.name)) := by
    intro x hxF hxfil
    obtain ⟨tg, htg, rfl⟩ := List.mem_map.1 hxfil
    have := (List.mem_filter.1 htg).2
    simp only [decide_eq_true_eq] at this
    exact this hxF
  have hnd : ((mergedGenres F T).map (fun g => g.name)).Nodup := by
    rw [hnames]
    exact hF.append hndfil hdisj
  rw [count_name_of_nodup _ n hnd]
  have hiff : (n ∈ (mergedGenres F T).map (fun g => g.name))
      ↔ (n ∈ namesOf F ∨ n ∈ namesOf T) := by
    rw [hnames]
    constructor
    · intro h
      rcases List.mem_append.1 h with h | h
      · exact Or.inl h
      · obtain ⟨tg, htg, rfl⟩ := List.mem_map.1 h
        refine Or.inr ?_
        simp only [namesOf, List.mem_map]
        exact ⟨tg, (List.mem_filter.1 htg).1, rfl⟩
    · intro h
      by_cases hf : n ∈ namesOf F
      · exact List.mem_append_left _ hf
      · rcases h with h | h
        · exact absurd h hf
        · obtain ⟨tg, htg, rfl⟩ : ∃ tg ∈ T, tg.name = n := by
            simpa [namesOf, List.mem_map] using h
          refine List.mem_append_right _ ?_
          refine List.mem_map.2 ⟨tg, ?_, rfl⟩
          refine List.mem_filter.2 ⟨htg, ?_⟩
          simpa using hf
  rw [if_congr hiff rfl rfl]

/-- Witness for C4 at concrete vocabularies sharing the name `"Action"`
(film id 28, television id 10759). -/
theorem combine_genre_lists_merge_witness :
    (combineGenreLists sampleFilmGenres sampleTVGenres).genres
        = mergedGenres sampleFilmGenres sampleTVGenres
    ∧ ((combineGenreLists sampleFilmGenres sampleTVGenres).genres.filter
          fun g => decide (g.name = "Action")).length
        = if "Action" ∈ namesOf sampleFilmGenres ∨ "Action" ∈ namesOf sampleTVGenres
          then 1 else 0 := by
  have h := combine_genre_lists_merge sampleFilmGenres sampleTVGenres
    (by decide) (by decide)
  exact ⟨h.1, h.2 "Action"⟩

end Greenroom
